import Mathlib

/-!
Verification of the SMART CVD risk-reduction calculator
(`SP-cvd_risk_app_final_ready.py`).

The Python source computes with IEEE floats; we shallow-embed its
arithmetic over exact fields: the risk-composition pipeline (which uses
only field operations, `min`, `max` and one-decimal rounding) over `ℚ`,
and the SMART baseline-risk estimator (which uses `math.log`, `math.exp`
and real exponentiation) over `ℝ`.  Python's `round(x, 1)` rounds to the
nearest tenth with ties to even; `roundHalfEven`/`pyRound1` model that
exactly.
-/

/-- Round to the nearest integer, ties to even: the model of Python's
`round(y)` on exact values. -/
def roundHalfEven {α : Type} [LinearOrderedField α] [FloorRing α] (y : α) : ℤ :=
  if y - ⌊y⌋ < 1/2 then ⌊y⌋
  else if 1/2 < y - ⌊y⌋ then ⌊y⌋ + 1
  else if 2 ∣ ⌊y⌋ then ⌊y⌋ else ⌊y⌋ + 1

/-- Model of Python's `round(x, 1)`: round to one decimal place,
ties to even. -/
def pyRound1 {α : Type} [LinearOrderedField α] [FloorRing α] (x : α) : α :=
  ((roundHalfEven (x * 10) : ℤ) : α) / 10

/-! ## Data model: intervention and LDL-therapy catalogs (source lines 6-29) -/

/-- One entry of the intervention catalog: a name and its lifetime / 5-year
absolute-risk-reduction percentages. -/
structure Intervention where
  name : String
  arr_lifetime : ℚ
  arr_5yr : ℚ
deriving DecidableEq

/-- The intervention catalog, verbatim from the source (lines 6-18). -/
def interventions : List Intervention :=
  [⟨"Smoking cessation", 17, 5⟩,
   ⟨"Antiplatelet (ASA or clopidogrel)", 6, 2⟩,
   ⟨"BP control (ACEi/ARB ± CCB)", 12, 4⟩,
   ⟨"Semaglutide 2.4 mg", 4, 1⟩,
   ⟨"Weight loss to ideal BMI", 10, 3⟩,
   ⟨"Empagliflozin", 6, 2⟩,
   ⟨"Icosapent ethyl (TG ≥1.5)", 5, 2⟩,
   ⟨"Mediterranean diet", 9, 3⟩,
   ⟨"Physical activity", 9, 3⟩,
   ⟨"Alcohol moderation", 5, 2⟩,
   ⟨"Stress reduction", 3, 1⟩]

/-- The LDL-therapy catalog: name and percentage LDL-C reduction
(source lines 20-29). -/
def ldl_therapies : List (String × ℚ) :=
  [("Atorvastatin 20 mg", 40),
   ("Atorvastatin 80 mg", 50),
   ("Rosuvastatin 10 mg", 40),
   ("Rosuvastatin 20–40 mg", 55),
   ("Simvastatin 40 mg", 35),
   ("Ezetimibe", 20),
   ("PCSK9 inhibitor", 60),
   ("Bempedoic acid", 18)]

/-- The three time horizons offered by the UI radio button (source line 55). -/
inductive Horizon where
  | h5yr : Horizon
  | h10yr : Horizon
  | lifetime : Horizon
deriving DecidableEq

/-- Result record of one evaluation (spec's `RiskResult`). -/
structure RiskResult where
  baseline_risk : ℚ
  final_risk : ℚ
  arr : ℚ
  rrr : ℚ
deriving DecidableEq

/-! ## LDL therapy stack (source lines 84-94) -/

/-- Function `adjusted_ldl`: baseline LDL-C after the already-active therapies, each
applied at full potency, clamped to the 1.0 mmol/L floor
(source lines 84-87). -/
def adjusted_ldl (baseline_ldl : ℚ) (on_therapy : List (String × ℚ)) : ℚ :=
  max (on_therapy.foldl (fun l d => l * (1 - d.2/100)) baseline_ldl) 1.0

/-- Function `final_ldl`: `adjusted_ldl` after the newly added therapies, each applied
at half potency, clamped again to the 1.0 mmol/L floor
(source lines 91-94). -/
def final_ldl (baseline_ldl : ℚ) (on_therapy additional : List (String × ℚ)) : ℚ :=
  max ((additional.foldl (fun l d => l * (1 - (d.2/100) * 0.5))
    (adjusted_ldl baseline_ldl on_therapy))) 1.0

/-! ## Risk-reduction composition (source lines 120-139) -/

/-- The per-intervention multiplicative step (source lines 122-125): the loop
walks the catalog and, for each entry whose name is in the selection,
multiplies the remaining risk fraction by `1 - arr/100`, where `arr` is the
5-year ARR for the 5-year horizon and the lifetime ARR otherwise. -/
def applyInterventions (horizon : Horizon) (selected_iv : List String) (r : ℚ) : ℚ :=
  interventions.foldl
    (fun remaining iv =>
      if iv.name ∈ selected_iv then
        remaining *
          (1 - (if horizon = Horizon.h5yr then iv.arr_5yr else iv.arr_lifetime)/100)
      else remaining) r

/-- Function `ldl_rrr` (source line 129): relative risk reduction from the LDL drop,
capped at 35 percent. -/
def ldl_rrr (baseline_ldl fLdl : ℚ) : ℚ :=
  min (22 * (baseline_ldl - fLdl)) 35

/-- Function `bp_rrr` (source line 133): relative risk reduction from the SBP drop,
capped at 20 percent. -/
def bp_rrr (sbp_current sbp_target : ℚ) : ℚ :=
  min (15 * ((sbp_current - sbp_target)/10)) 20

/-- The remaining risk fraction after all three reduction stages
(source lines 121-134). -/
def remainingFraction (baseline_risk : ℚ) (horizon : Horizon) (selected_iv : List String)
    (baseline_ldl fLdl sbp_current sbp_target : ℚ) : ℚ :=
  applyInterventions horizon selected_iv (baseline_risk/100)
    * (1 - ldl_rrr baseline_ldl fLdl/100)
    * (1 - bp_rrr sbp_current sbp_target/100)

/-- The whole composition pipeline (source lines 120-139): final risk, ARR and
RRR, each rounded to one decimal; the RRR guard is Python truthiness on
`baseline_risk`, i.e. the formula branch runs whenever `baseline_risk ≠ 0`. -/
def composeFinalRisk (baseline_risk : ℚ) (horizon : Horizon) (selected_iv : List String)
    (baseline_ldl fLdl sbp_current sbp_target : ℚ) : RiskResult :=
  let remaining := remainingFraction baseline_risk horizon selected_iv
    baseline_ldl fLdl sbp_current sbp_target
  let fr := pyRound1 (remaining * 100)
  let a := pyRound1 (baseline_risk - fr)
  let rr := if baseline_risk = 0 then 0 else pyRound1 (a / baseline_risk * 100)
  ⟨baseline_risk, fr, a, rr⟩

/-! ## SMART risk estimator (source lines 32-46), over `ℝ` -/

/-- Sex as offered by the UI radio button (source line 61). -/
inductive Sex where
  | Male : Sex
  | Female : Sex
deriving DecidableEq

/-- Function `crp_log` (source line 36): `math.log(crp + 1) if crp else 0`, i.e. the
logarithm term is taken to be zero exactly when `crp == 0` (Python float
truthiness). -/
noncomputable def crp_log (crp : ℝ) : ℝ :=
  if crp ≠ 0 then Real.log (crp + 1) else 0

/-- The linear predictor `lp` of `estimate_smart_risk`
(source lines 37-39), with the source's `- 0.2*(egfr/10)` term verbatim. -/
noncomputable def smart_lp (age : ℝ) (sex : Sex) (sbp total_chol hdl : ℝ)
    (smoker diabetes : Bool) (egfr crp vasc_count : ℝ) : ℝ :=
  0.064*age + 0.34*(if sex = Sex.Male then (1:ℝ) else 0) + 0.02*sbp
    + 0.25*total_chol - 0.25*hdl + 0.44*(if smoker then (1:ℝ) else 0)
    + 0.51*(if diabetes then (1:ℝ) else 0)
    - 0.2*(egfr/10) + 0.25*crp_log crp + 0.4*vasc_count

/-- Function `estimate_smart_risk` (source lines 32-41): the 10-year baseline risk in
percent, rounded to one decimal. -/
noncomputable def estimate_smart_risk (age : ℝ) (sex : Sex) (sbp total_chol hdl : ℝ)
    (smoker diabetes : Bool) (egfr crp vasc_count : ℝ) : ℝ :=
  pyRound1 ((1 - (0.900:ℝ) ^
    Real.exp (smart_lp age sex sbp total_chol hdl smoker diabetes egfr crp vasc_count
      - 5.8)) * 100)

/-- Function `estimate_5yr_from_10yr` (source lines 43-46): the 5-year risk derived
from the rounded 10-year risk under a constant-hazard assumption, rounded to
one decimal. -/
noncomputable def estimate_5yr_from_10yr (risk10 : ℝ) : ℝ :=
  pyRound1 ((1 - (1 - risk10/100) ^ ((0.5:ℝ))) * 100)

/-! ## Spec-side definitions, written from the spec's words, for the
refinement claims C2 and C3 -/

/-- The linear predictor exactly as §4.1 of the spec writes it: coefficient
`− 0.02·eGFR`, and the `ln` term evaluated as 0 when crp is zero. -/
noncomputable def specLinearPredictor (age : ℝ) (sex : Sex) (sbp total_chol hdl : ℝ)
    (smoker diabetes : Bool) (egfr crp vasc_count : ℝ) : ℝ :=
  0.064*age + 0.34*(if sex = Sex.Male then (1:ℝ) else 0) + 0.02*sbp
    + 0.25*total_chol - 0.25*hdl + 0.44*(if smoker then (1:ℝ) else 0)
    + 0.51*(if diabetes then (1:ℝ) else 0)
    - 0.02*egfr + 0.25*(if crp = 0 then 0 else Real.log (crp + 1))
    + 0.4*vasc_count

/-- Spec section 4.1's `risk10 = (1 − 0.900^(e^(lp − 5.8))) · 100`, rounded to one
decimal place. -/
noncomputable def specBaselineRisk10 (age : ℝ) (sex : Sex) (sbp total_chol hdl : ℝ)
    (smoker diabetes : Bool) (egfr crp vasc_count : ℝ) : ℝ :=
  pyRound1 ((1 - (0.900:ℝ) ^
    Real.exp (specLinearPredictor age sex sbp total_chol hdl smoker diabetes
      egfr crp vasc_count - 5.8)) * 100)

/-- The ARR percentage the spec's §4.2 per-intervention step looks up:
`arr_5yr` for the 5-year horizon, `arr_lifetime` otherwise (the 10-year
horizon also uses the lifetime ARR). -/
def specArrOf (horizon : Horizon) (iv : Intervention) : ℚ :=
  if horizon = Horizon.h5yr then iv.arr_5yr else iv.arr_lifetime

/-- Spec section 4.2's remaining-risk fraction: `r = baselineRisk/100`, then
`r ← r·(1 − arr/100)` once per selected intervention, then the LDL factor
`1 − min(22·drop, 35)/100`, then the BP factor
`1 − min(15·((sbpCurrent − sbpTarget)/10), 20)/100`. -/
def specRemainingFraction (baselineRisk : ℚ) (horizon : Horizon)
    (selectedInterventions : List Intervention) (baselineLdl finalLdl c t : ℚ) : ℚ :=
  (selectedInterventions.foldl (fun r iv => r * (1 - specArrOf horizon iv/100))
      (baselineRisk/100))
    * (1 - min (22*(baselineLdl - finalLdl)) 35/100)
    * (1 - min (15*((c - t)/10)) 20/100)

/-- Spec section 4.2's final output `finalRisk = round(r·100, 1)`. -/
def specFinalRisk (baselineRisk : ℚ) (horizon : Horizon)
    (selectedInterventions : List Intervention) (baselineLdl finalLdl c t : ℚ) : ℚ :=
  pyRound1 (specRemainingFraction baselineRisk horizon selectedInterventions
    baselineLdl finalLdl c t * 100)

/-- Spec section 4.2's final output `arr = round(baselineRisk − finalRisk, 1)`. -/
def specArrOut (baselineRisk : ℚ) (horizon : Horizon)
    (selectedInterventions : List Intervention) (baselineLdl finalLdl c t : ℚ) : ℚ :=
  pyRound1 (baselineRisk - specFinalRisk baselineRisk horizon selectedInterventions
    baselineLdl finalLdl c t)

/-! ## Rounding lemmas -/

theorem roundHalfEven_eq_of {α : Type} [LinearOrderedField α] [FloorRing α]
    (k : ℤ) (z : α) (h1 : (k : α) - 1/2 < z) (h2 : z < (k : α) + 1/2) :
    roundHalfEven z = k := by
  rcases lt_or_le z (k : α) with hz | hz
  · have hfl : ⌊z⌋ = k - 1 := by
      rw [Int.floor_eq_iff]
      constructor
      · push_cast
        linarith
      · push_cast
        linarith
    unfold roundHalfEven
    rw [hfl]
    have hfrac : ¬ (z - ((k - 1 : ℤ) : α) < 1/2) := by
      push_cast
      push_cast at h1
      linarith
    rw [if_neg hfrac]
    have hfrac2 : (1:α)/2 < z - ((k - 1 : ℤ) : α) := by
      push_cast
      push_cast at h1
      rcases lt_or_eq_of_le (not_lt.mp hfrac) with h | h
      · push_cast at h
        linarith
      · push_cast at h
        linarith
    rw [if_pos hfrac2]
    omega
  · have hfl : ⌊z⌋ = k := by
      rw [Int.floor_eq_iff]
      constructor
      · exact_mod_cast hz
      · push_cast
        linarith
    unfold roundHalfEven
    rw [hfl]
    have hfrac : z - (k : α) < 1/2 := by linarith
    rw [if_pos hfrac]

theorem roundHalfEven_intCast {α : Type} [LinearOrderedField α] [FloorRing α]
    (k : ℤ) : roundHalfEven ((k : α)) = k := by
  apply roundHalfEven_eq_of
  · linarith
  · linarith

theorem floor_le_roundHalfEven {α : Type} [LinearOrderedField α] [FloorRing α]
    (z : α) : ⌊z⌋ ≤ roundHalfEven z := by
  unfold roundHalfEven
  split_ifs <;> omega

theorem roundHalfEven_le_floor_add_one {α : Type} [LinearOrderedField α] [FloorRing α]
    (z : α) : roundHalfEven z ≤ ⌊z⌋ + 1 := by
  unfold roundHalfEven
  split_ifs <;> omega

theorem roundHalfEven_mono {α : Type} [LinearOrderedField α] [FloorRing α]
    {x y : α} (h : x ≤ y) : roundHalfEven x ≤ roundHalfEven y := by
  rcases lt_or_eq_of_le (Int.floor_le_floor h) with hf | hf
  · calc roundHalfEven x ≤ ⌊x⌋ + 1 := roundHalfEven_le_floor_add_one x
      _ ≤ ⌊y⌋ := by omega
      _ ≤ roundHalfEven y := floor_le_roundHalfEven y
  · unfold roundHalfEven
    rw [hf]
    have hxy : x - (⌊y⌋ : α) ≤ y - (⌊y⌋ : α) := by linarith
    split_ifs with h1 h2 h3 h4 h5 h6 h7 h8 <;> first
      | omega
      | (exfalso; linarith)

theorem pyRound1_mono {α : Type} [LinearOrderedField α] [FloorRing α]
    {x y : α} (h : x ≤ y) : pyRound1 x ≤ pyRound1 y := by
  unfold pyRound1
  have h10 : x * 10 ≤ y * 10 := by linarith
  have := roundHalfEven_mono h10
  have hc : ((roundHalfEven (x * 10) : ℤ) : α) ≤ ((roundHalfEven (y * 10) : ℤ) : α) := by
    exact_mod_cast this
  linarith

theorem pyRound1_tenth {α : Type} [LinearOrderedField α] [FloorRing α]
    (k : ℤ) : pyRound1 ((k : α) / 10) = (k : α) / 10 := by
  unfold pyRound1
  rw [show ((k : α) / 10) * 10 = (k : α) by ring, roundHalfEven_intCast]

theorem pyRound1_bounds {α : Type} [LinearOrderedField α] [FloorRing α]
    (x : α) : x - 1/20 ≤ pyRound1 x ∧ pyRound1 x ≤ x + 1/20 := by
  unfold pyRound1
  have hfl : (⌊x * 10⌋ : α) ≤ x * 10 := Int.floor_le _
  have hfl2 : x * 10 < (⌊x * 10⌋ : α) + 1 := Int.lt_floor_add_one _
  have hlb : (⌊x * 10⌋ : ℤ) ≤ roundHalfEven (x * 10) := floor_le_roundHalfEven _
  have hub : roundHalfEven (x * 10) ≤ ⌊x * 10⌋ + 1 := roundHalfEven_le_floor_add_one _
  have hbound : x * 10 - 1/2 ≤ ((roundHalfEven (x * 10) : ℤ) : α) ∧
      ((roundHalfEven (x * 10) : ℤ) : α) ≤ x * 10 + 1/2 := by
    unfold roundHalfEven
    split_ifs with h1 h2 h3
    · constructor
      · push_cast
        linarith
      · push_cast
        linarith
    · constructor
      · push_cast
        linarith
      · push_cast
        linarith
    · have heq : x * 10 - (⌊x * 10⌋ : α) = 1/2 := le_antisymm (not_lt.mp h2) (not_lt.mp h1)
      constructor
      · push_cast
        linarith
      · push_cast
        linarith
    · have heq : x * 10 - (⌊x * 10⌋ : α) = 1/2 := le_antisymm (not_lt.mp h2) (not_lt.mp h1)
      constructor
      · push_cast
        linarith
      · push_cast
        linarith
  constructor
  · linarith [hbound.1]
  · linarith [hbound.2]


/-! ## Elementary composer lemmas -/

theorem applyInterventions_nil (h : Horizon) (r : ℚ) :
    applyInterventions h [] r = r := by
  simp [applyInterventions, interventions]

theorem bp_rrr_self (c : ℚ) : bp_rrr c c = 0 := by
  unfold bp_rrr
  norm_num

/-! ## Claims -/

/-- Claim C6 (confirmed): the LDL step computes
`rrrLdl = min(22·(baselineLdl − finalLdl), 35)`; a drop of at least `35/22`
hits the 35 cap; a negative drop is not clamped to zero, so its factor
`1 − rrrLdl/100` exceeds 1 and strictly increases any positive remaining
risk. -/
theorem claim_C6_ldl_step (b f : ℚ) :
    ldl_rrr b f = min (22 * (b - f)) 35 ∧
    (35/22 ≤ b - f → ldl_rrr b f = 35) ∧
    (b - f < 0 → ldl_rrr b f = 22 * (b - f) ∧
      ∀ r : ℚ, 0 < r → r < r * (1 - ldl_rrr b f / 100)) := by
  refine ⟨rfl, fun h => ?_, fun h => ?_⟩
  · unfold ldl_rrr
    rw [min_eq_right]
    linarith
  · have hval : ldl_rrr b f = 22 * (b - f) := by
      unfold ldl_rrr
      rw [min_eq_left]
      linarith
    refine ⟨hval, fun r hr => ?_⟩
    rw [hval]
    nlinarith

theorem claim_C6_ldl_step_witness :
    ldl_rrr 4 2 = 35 ∧ ldl_rrr 1 2 = 22 * (1 - 2) ∧
      (5:ℚ) < 5 * (1 - ldl_rrr 1 2 / 100) :=
  ⟨(claim_C6_ldl_step 4 2).2.1 (by norm_num),
   ((claim_C6_ldl_step 1 2).2.2 (by norm_num)).1,
   ((claim_C6_ldl_step 1 2).2.2 (by norm_num)).2 5 (by norm_num)⟩

/-- Claim C7, counterexample: at an SBP gap of exactly 13.33 mmHg the BP RRR
is `15·1.333 = 19.995`, not 20, so the cap is not yet reached at the
claimed threshold. -/
theorem claim_C7_counterexample :
    (13.33 : ℚ) ≤ 133.33 - 120 ∧ bp_rrr 133.33 120 ≠ 20 := by
  constructor
  · norm_num
  · unfold bp_rrr
    norm_num [min_def]

/-- Claim C7, amended (the cap threshold is `40/3 = 13.33…`, not 13.33):
the BP step computes `rrrBp = min(15·((sbpCurrent − sbpTarget)/10), 20)`,
and the cap 20 is reached exactly when the SBP gap is at least `40/3`. -/
theorem claim_C7_bp_step (c t : ℚ) :
    bp_rrr c t = min (15 * ((c - t)/10)) 20 ∧
    (bp_rrr c t = 20 ↔ 40/3 ≤ c - t) := by
  refine ⟨rfl, ?_⟩
  unfold bp_rrr
  rw [min_eq_right_iff]
  constructor <;> intro h <;> linarith

/-- Claim C8 (confirmed): for every baseline LDL-C and any stacks of active
and newly added therapies, the derived final LDL-C is at least 1.0 mmol/L,
and it is computed in two clamped stages: active therapies at full potency
(`ldl ← ldl·(1 − potency/100)`, clamp to 1.0), then new therapies at half
potency (`ldl ← ldl·(1 − potency/100·0.5)`, clamp to 1.0). -/
theorem claim_C8_ldl_floor (b : ℚ) (on_t addl : List (String × ℚ)) :
    1 ≤ final_ldl b on_t addl ∧
    final_ldl b on_t addl =
      max (addl.foldl (fun l d => l * (1 - (d.2/100) * (1/2)))
        (max (on_t.foldl (fun l d => l * (1 - d.2/100)) b) 1)) 1 := by
  constructor
  · unfold final_ldl
    norm_num
  · unfold final_ldl adjusted_ldl
    norm_num

/-- Claim C10, counterexample: with no therapies and `baselineLdl = 0.5 < 1`,
the floor makes `finalLdl = 1`, the drop is negative, yet at baseline risk
0.1 % the composed final risk is rounded back to exactly the baseline risk,
not above it. -/
theorem claim_C10_counterexample :
    (1/2 : ℚ) < 1 ∧
    (composeFinalRisk (1/10) Horizon.h10yr [] (1/2) (final_ldl (1/2) [] [])
        145 145).final_risk = 1/10 ∧
    ¬ ((composeFinalRisk (1/10) Horizon.h10yr [] (1/2) (final_ldl (1/2) [] [])
        145 145).baseline_risk <
      (composeFinalRisk (1/10) Horizon.h10yr [] (1/2) (final_ldl (1/2) [] [])
        145 145).final_risk) := by
  have hldl : final_ldl (1/2) [] [] = 1 := by
    unfold final_ldl adjusted_ldl
    norm_num
  rw [hldl]
  have hrem : remainingFraction (1/10) Horizon.h10yr [] (1/2) 1 145 145 = 111/100000 := by
    unfold remainingFraction ldl_rrr bp_rrr
    rw [applyInterventions_nil]
    norm_num [min_def]
  constructor
  · norm_num
  · unfold composeFinalRisk
    rw [hrem]
    unfold pyRound1
    norm_num
    rw [show roundHalfEven ((111:ℚ)/100) = 1 from
      roundHalfEven_eq_of 1 _ (by norm_num) (by norm_num)]
    norm_num

/-- Claim C10, amended: with no active and no new therapies the derived
`finalLdl` equals `max(baselineLdl, 1)`; for `baselineLdl < 1` the floor
makes `finalLdl` strictly exceed `baselineLdl`, the LDL drop is negative, and
the pre-rounding composed remaining risk strictly exceeds the baseline
fraction for every positive baseline risk (after the one-decimal rounding the
reported final risk can still equal the baseline, as the counterexample
shows). -/
theorem claim_C10_ldl_floor_no_therapy (b : ℚ) :
    final_ldl b [] [] = max b 1 ∧
    (b < 1 → b < final_ldl b [] [] ∧ b - final_ldl b [] [] < 0 ∧
      ∀ R : ℚ, 0 < R →
        R / 100 < remainingFraction R Horizon.h10yr [] b (final_ldl b [] []) 145 145) := by
  have hmax : final_ldl b [] [] = max b 1 := by
    unfold final_ldl adjusted_ldl
    norm_num [max_assoc]
  refine ⟨hmax, fun hb => ?_⟩
  have hone : final_ldl b [] [] = 1 := by
    rw [hmax, max_eq_right (le_of_lt hb)]
  refine ⟨by rw [hone]; exact hb, by rw [hone]; linarith, fun R hR => ?_⟩
  rw [hone]
  unfold remainingFraction
  rw [applyInterventions_nil, bp_rrr_self]
  have hrrr : ldl_rrr b 1 = 22 * (b - 1) := by
    unfold ldl_rrr
    rw [min_eq_left]
    linarith
  rw [hrrr]
  nlinarith

theorem claim_C10_ldl_floor_no_therapy_witness :
    (1/2:ℚ) < final_ldl (1/2) [] [] ∧ (1/2:ℚ) - final_ldl (1/2) [] [] < 0 ∧
      (1/10:ℚ) / 100 <
        remainingFraction (1/10) Horizon.h10yr [] (1/2) (final_ldl (1/2) [] []) 145 145 :=
  ⟨((claim_C10_ldl_floor_no_therapy (1/2)).2 (by norm_num)).1,
   ((claim_C10_ldl_floor_no_therapy (1/2)).2 (by norm_num)).2.1,
   ((claim_C10_ldl_floor_no_therapy (1/2)).2 (by norm_num)).2.2 (1/10) (by norm_num)⟩

theorem pyRound1_eq_tenth (x : ℚ) (k : ℤ) (hx : x = (k : ℚ)/10) : pyRound1 x = x := by
  rw [hx, pyRound1_tenth]

/-- Claim C5, counterexample: the identity-composition property fails for a
baseline risk that is not a one-decimal value: at `baselineRisk = 1/3`, with
no interventions, `finalLdl = baselineLdl` and `sbpTarget = sbpCurrent`, the
final risk is the rounded value 0.3, not the baseline risk `1/3`. -/
theorem claim_C5_counterexample :
    (composeFinalRisk (1/3) Horizon.h10yr [] (7/2) (7/2) 145 145).final_risk ≠ (1/3 : ℚ) := by
  have hrem : remainingFraction (1/3) Horizon.h10yr [] (7/2) (7/2) 145 145 = 1/300 := by
    unfold remainingFraction ldl_rrr
    rw [applyInterventions_nil, bp_rrr_self]
    norm_num [min_def]
  unfold composeFinalRisk
  rw [hrem]
  unfold pyRound1
  norm_num
  rw [show roundHalfEven ((10:ℚ)/3) = 3 from
    roundHalfEven_eq_of 3 _ (by norm_num) (by norm_num)]
  norm_num

/-- Claim C5, amended: the identity holds for every baseline risk that is an
integer multiple of 0.1 — which every risk produced by the estimator is.
Composing zero interventions with `finalLdl = baselineLdl` and
`sbpTarget = sbpCurrent` then returns `finalRisk = baselineRisk`, `arr = 0`
and `rrr = 0`. -/
theorem claim_C5_identity (b : ℚ) (k : ℤ) (hk : b = (k : ℚ)/10)
    (h : Horizon) (bl c : ℚ) :
    composeFinalRisk b h [] bl bl c c = ⟨b, b, 0, 0⟩ := by
  have hrem : remainingFraction b h [] bl bl c c = b/100 := by
    unfold remainingFraction ldl_rrr
    rw [applyInterventions_nil, bp_rrr_self]
    norm_num [min_def]
  have h0 : pyRound1 (0:ℚ) = 0 := by
    rw [pyRound1_eq_tenth 0 0 (by norm_num)]
  have hfr : pyRound1 (b/100 * 100) = b := by
    rw [show b/100*100 = b by ring, hk, pyRound1_tenth]
  simp only [composeFinalRisk]
  rw [hrem, hfr]
  have ha : pyRound1 (b - b) = 0 := by
    rw [show b - b = (0:ℚ) by ring, h0]
  rw [ha]
  have hrr : (if b = 0 then (0:ℚ) else pyRound1 (0 / b * 100)) = 0 := by
    split_ifs
    · rfl
    · rw [show (0:ℚ)/b*100 = 0 by ring, h0]
  rw [hrr]

theorem claim_C5_identity_witness :
    composeFinalRisk (3/10) Horizon.h10yr [] (7/2) (7/2) 145 145 =
      ⟨3/10, 3/10, 0, 0⟩ :=
  claim_C5_identity (3/10) 3 (by norm_num) Horizon.h10yr (7/2) 145

/-- Claim C9, counterexample: the RRR guard in the source is Python
truthiness (`if baseline_risk`), not `baselineRisk > 0`: at the negative
baseline risk −10 with one selected intervention the code returns
`rrr = 3 ≠ 0`, while the claim demands `rrr = 0` for every
`baselineRisk ≤ 0`. -/
theorem claim_C9_counterexample :
    (-10 : ℚ) ≤ 0 ∧
    (composeFinalRisk (-10) Horizon.lifetime ["Stress reduction"]
      (7/2) (7/2) 145 145).rrr ≠ 0 := by
  have happ : applyInterventions Horizon.lifetime ["Stress reduction"] ((-10)/100)
      = -97/1000 := by
    simp [applyInterventions, interventions]
    norm_num
  have hrem : remainingFraction (-10) Horizon.lifetime ["Stress reduction"]
      (7/2) (7/2) 145 145 = -97/1000 := by
    unfold remainingFraction ldl_rrr
    rw [happ, bp_rrr_self]
    norm_num [min_def]
  refine ⟨by norm_num, ?_⟩
  simp only [composeFinalRisk]
  rw [hrem]
  have hfr : pyRound1 ((-97:ℚ)/1000 * 100) = -97/10 := by
    rw [pyRound1_eq_tenth _ (-97) (by norm_num)]
    norm_num
  rw [hfr]
  have ha : pyRound1 ((-10:ℚ) - (-97)/10) = -3/10 := by
    rw [show ((-10:ℚ) - (-97)/10) = ((-3:ℤ):ℚ)/10 by norm_num, pyRound1_tenth]
    norm_num
  rw [ha]
  have hrr : ((-3:ℚ)/10) / (-10) * 100 = 3 := by norm_num
  simp only [hrr]
  rw [pyRound1_eq_tenth 3 30 (by norm_num)]
  norm_num

/-- Claim C9, amended: `rrr = round(arr/baselineRisk·100, 1)` whenever
`baselineRisk ≠ 0` (in particular also for negative baselines), and
`rrr = 0` when `baselineRisk = 0`, as a defined result branch of the total
function — never by division inside the zero case. -/
theorem claim_C9_rrr_guard (b : ℚ) (h : Horizon) (sel : List String) (bl fl c t : ℚ) :
    (b ≠ 0 → (composeFinalRisk b h sel bl fl c t).rrr =
      pyRound1 ((composeFinalRisk b h sel bl fl c t).arr / b * 100)) ∧
    (b = 0 → (composeFinalRisk b h sel bl fl c t).rrr = 0) := by
  unfold composeFinalRisk
  constructor
  · intro hb
    simp [hb]
  · intro hb
    simp [hb]

theorem claim_C9_rrr_guard_witness :
    ((composeFinalRisk (-10) Horizon.lifetime ["Stress reduction"] (7/2) (7/2) 145 145).rrr =
      pyRound1 ((composeFinalRisk (-10) Horizon.lifetime ["Stress reduction"]
        (7/2) (7/2) 145 145).arr / (-10) * 100)) ∧
    (composeFinalRisk 0 Horizon.h10yr [] (7/2) (7/2) 145 145).rrr = 0 :=
  ⟨(claim_C9_rrr_guard (-10) Horizon.lifetime ["Stress reduction"] (7/2) (7/2) 145 145).1
      (by norm_num),
   (claim_C9_rrr_guard 0 Horizon.h10yr [] (7/2) (7/2) 145 145).2 rfl⟩

/-- Claim C1, counterexample: a selected name absent from the catalog is
silently ignored — the composition with it returns exactly the result of the
composition without it, and no error is surfaced. -/
theorem claim_C1_counterexample :
    "Time travel" ∉ interventions.map Intervention.name ∧
    composeFinalRisk 10 Horizon.h10yr ["Time travel"] (7/2) 2 145 120 =
      composeFinalRisk 10 Horizon.h10yr [] (7/2) 2 145 120 := by
  constructor
  · decide
  · have happ : ∀ r : ℚ, applyInterventions Horizon.h10yr ["Time travel"] r
        = applyInterventions Horizon.h10yr [] r := by
      intro r
      simp [applyInterventions, interventions]
    unfold composeFinalRisk remainingFraction
    rw [happ]

/-- Claim C1, amended: the composition loop only tests catalog entries for
membership in the selection, so a selected name not present in the catalog
is silently skipped (a no-op factor): prepending any unknown name to the
selection leaves the entire result unchanged, and no error path exists. -/
theorem claim_C1_unknown_ignored (b : ℚ) (h : Horizon) (sel : List String)
    (n : String) (hn : n ∉ interventions.map Intervention.name) (bl fl c t : ℚ) :
    composeFinalRisk b h (n :: sel) bl fl c t = composeFinalRisk b h sel bl fl c t := by
  have happ : ∀ r : ℚ, applyInterventions h (n :: sel) r = applyInterventions h sel r := by
    intro r
    unfold applyInterventions
    apply List.foldl_ext
    intro acc iv hiv
    have hne : iv.name ≠ n := fun he => hn (he ▸ List.mem_map_of_mem Intervention.name hiv)
    by_cases hmem : iv.name ∈ sel
    · rw [if_pos (List.mem_cons_of_mem _ hmem), if_pos hmem]
    · rw [if_neg ?_, if_neg hmem]
      intro hc
      rcases List.mem_cons.mp hc with he | hm
      · exact hne he
      · exact hmem hm
  unfold composeFinalRisk remainingFraction
  rw [happ]

theorem claim_C1_unknown_ignored_witness :
    composeFinalRisk 5 Horizon.h5yr ("Unobtainium" :: ["Smoking cessation"]) (7/2) 2 145 120 =
      composeFinalRisk 5 Horizon.h5yr ["Smoking cessation"] (7/2) 2 145 120 :=
  claim_C1_unknown_ignored 5 Horizon.h5yr ["Smoking cessation"] "Unobtainium"
    (by decide) (7/2) 2 145 120

/-! ## Claim C3: the catalog-walking loop refines the spec's
per-selected-intervention product -/

theorem interventions_names_nodup : (interventions.map Intervention.name).Nodup := by
  decide

theorem foldl_filter_sublist (g : ℚ → Intervention → ℚ) {sel l : List Intervention}
    (hsub : sel.Sublist l) :
    (l.map Intervention.name).Nodup →
    ∀ r : ℚ,
      l.foldl (fun acc iv =>
        if iv.name ∈ sel.map Intervention.name then g acc iv else acc) r
      = sel.foldl g r := by
  induction hsub with
  | slnil =>
    intro _ r
    rfl
  | @cons s t a hsub ih =>
    intro hnd r
    rw [List.map_cons, List.nodup_cons] at hnd
    rw [List.foldl_cons]
    have hna : a.name ∉ s.map Intervention.name := fun hmem =>
      hnd.1 ((hsub.map Intervention.name).subset hmem)
    rw [if_neg hna]
    exact ih hnd.2 r
  | @cons₂ s t a hsub ih =>
    intro hnd r
    rw [List.map_cons, List.nodup_cons] at hnd
    rw [List.foldl_cons, List.foldl_cons,
      if_pos (by rw [List.map_cons]; exact List.mem_cons_self _ _)]
    have hstep :
        List.foldl (fun acc iv =>
          if iv.name ∈ (a :: s).map Intervention.name then g acc iv else acc) (g r a) t
        = List.foldl (fun acc iv =>
          if iv.name ∈ s.map Intervention.name then g acc iv else acc) (g r a) t := by
      apply List.foldl_ext
      intro acc iv hiv
      have hne : iv.name ≠ a.name := fun he =>
        hnd.1 (he ▸ List.mem_map_of_mem Intervention.name hiv)
      by_cases hm : iv.name ∈ s.map Intervention.name
      · rw [if_pos ?_, if_pos hm]
        rw [List.map_cons]
        exact List.mem_cons_of_mem _ hm
      · rw [if_neg ?_, if_neg hm]
        rw [List.map_cons]
        intro hc
        rcases List.mem_cons.mp hc with he | hm2
        · exact hne he
        · exact hm hm2
    rw [hstep]
    exact ih hnd.2 (g r a)

/-- Claim C3 (confirmed): for a selection drawn from the catalog, the
module-level composition multiplies `r = baselineRisk/100` by `1 − arr/100`
once per selected intervention — `arr` being `arr_5yr` for the 5-year horizon
and `arr_lifetime` otherwise, the 10-year horizon included — then applies the
LDL and BP factors, and returns `finalRisk = round(r·100, 1)` and
`arr = round(baselineRisk − finalRisk, 1)`, exactly as the spec's
`composeFinalRisk` prescribes. -/
theorem claim_C3_composition (b : ℚ) (h : Horizon) (sel : List Intervention)
    (hsub : sel.Sublist interventions) (bLdl fLdl c t : ℚ) :
    (composeFinalRisk b h (sel.map Intervention.name) bLdl fLdl c t).final_risk
        = specFinalRisk b h sel bLdl fLdl c t ∧
    (composeFinalRisk b h (sel.map Intervention.name) bLdl fLdl c t).arr
        = specArrOut b h sel bLdl fLdl c t := by
  have happ : applyInterventions h (sel.map Intervention.name) (b/100)
      = sel.foldl (fun r iv => r * (1 - specArrOf h iv/100)) (b/100) := by
    unfold applyInterventions specArrOf
    exact foldl_filter_sublist _ hsub interventions_names_nodup (b/100)
  have hrem : remainingFraction b h (sel.map Intervention.name) bLdl fLdl c t
      = specRemainingFraction b h sel bLdl fLdl c t := by
    unfold remainingFraction specRemainingFraction ldl_rrr bp_rrr
    rw [happ]
  constructor
  · simp only [composeFinalRisk, specFinalRisk]
    rw [hrem]
  · simp only [composeFinalRisk, specArrOut, specFinalRisk]
    rw [hrem]

theorem claim_C3_composition_witness :
    (composeFinalRisk 20 Horizon.h5yr
        (List.map Intervention.name
          [⟨"Smoking cessation", 17, 5⟩, ⟨"Stress reduction", 3, 1⟩])
        (7/2) 2 145 120).final_risk
      = specFinalRisk 20 Horizon.h5yr
          [⟨"Smoking cessation", 17, 5⟩, ⟨"Stress reduction", 3, 1⟩] (7/2) 2 145 120 ∧
    (composeFinalRisk 20 Horizon.h5yr
        (List.map Intervention.name
          [⟨"Smoking cessation", 17, 5⟩, ⟨"Stress reduction", 3, 1⟩])
        (7/2) 2 145 120).arr
      = specArrOut 20 Horizon.h5yr
          [⟨"Smoking cessation", 17, 5⟩, ⟨"Stress reduction", 3, 1⟩] (7/2) 2 145 120 :=
  claim_C3_composition 20 Horizon.h5yr
    [⟨"Smoking cessation", 17, 5⟩, ⟨"Stress reduction", 3, 1⟩] (by decide) (7/2) 2 145 120

/-- Claim C2 (confirmed): the source's linear predictor equals the spec's for
every input — in particular the source's eGFR term `0.2·(egfr/10)` is the
spec's `0.02·eGFR` — and hence the rounded 10-year baseline risk
`round((1 − 0.900^(e^(lp − 5.8)))·100, 1)` agrees as well, with the `ln`
term zero exactly when crp is zero. -/
theorem claim_C2_baseline_formula (age : ℝ) (sex : Sex) (sbp total_chol hdl : ℝ)
    (smoker diabetes : Bool) (egfr crp vasc_count : ℝ) :
    estimate_smart_risk age sex sbp total_chol hdl smoker diabetes egfr crp vasc_count
      = specBaselineRisk10 age sex sbp total_chol hdl smoker diabetes egfr crp vasc_count := by
  have hlp : smart_lp age sex sbp total_chol hdl smoker diabetes egfr crp vasc_count
      = specLinearPredictor age sex sbp total_chol hdl smoker diabetes egfr crp vasc_count := by
    have hif : (if crp ≠ 0 then Real.log (crp + 1) else 0)
        = (if crp = 0 then 0 else Real.log (crp + 1)) := by
      by_cases hcrp : crp = 0
      · simp [hcrp]
      · simp [hcrp]
    unfold smart_lp specLinearPredictor crp_log
    rw [hif]
    ring
  unfold estimate_smart_risk specBaselineRisk10
  rw [hlp]

/-! ## Claim C4: numeric bounds for the estimator at the minimal profile -/

theorem exp_five_lt_149 : Real.exp 5 < 149 := by
  have h5 : Real.exp 5 = Real.exp 1 ^ (5:ℕ) := by
    rw [← Real.exp_nat_mul]
    norm_num
  rw [h5]
  have h1 : Real.exp 1 < 2.7182818286 := Real.exp_one_lt_d9
  calc Real.exp 1 ^ (5:ℕ) < 2.7182818286 ^ (5:ℕ) :=
        pow_lt_pow_left h1 (le_of_lt (Real.exp_pos 1)) (by norm_num)
    _ < 149 := by norm_num

theorem exp_49_tenths_gt_103 : (103:ℝ) < Real.exp (49/10) := by
  have h : Real.exp (49/10 : ℝ) = Real.exp 4 * Real.exp (9/10) := by
    rw [← Real.exp_add]
    norm_num
  rw [h]
  have h4 : (54.5:ℝ) < Real.exp 4 := by
    have h4e : Real.exp 4 = Real.exp 1 ^ (4:ℕ) := by
      rw [← Real.exp_nat_mul]
      norm_num
    rw [h4e]
    have h1 : (2.7182818283:ℝ) < Real.exp 1 := Real.exp_one_gt_d9
    calc (54.5:ℝ) < 2.7182818283 ^ (4:ℕ) := by norm_num
      _ < Real.exp 1 ^ (4:ℕ) := pow_lt_pow_left h1 (by norm_num) (by norm_num)
  have h9 : (19:ℝ)/10 ≤ Real.exp (9/10) := by
    have := Real.add_one_le_exp ((9:ℝ)/10)
    linarith
  nlinarith [Real.exp_pos (9/10 : ℝ)]

theorem smart_lp_min_profile :
    smart_lp 30 Sex.Female 80 2 3 false false 120 (1/10) 0
      = 87/100 + Real.log (11/10) / 4 := by
  unfold smart_lp crp_log
  rw [if_neg (fun h => Sex.noConfusion h)]
  norm_num
  ring_nf

theorem raw_risk_bounds :
    1/1491 < 1 - (0.900:ℝ) ^ Real.exp (87/100 + Real.log (11/10) / 4 - 5.8) ∧
    1 - (0.900:ℝ) ^ Real.exp (87/100 + Real.log (11/10) / 4 - 5.8) < 1/927 := by
  have hL0 : 0 < Real.log (11/10 : ℝ) := Real.log_pos (by norm_num)
  have hL1 : Real.log (11/10 : ℝ) ≤ 1/10 := by
    have := Real.log_le_sub_one_of_pos (show (0:ℝ) < 11/10 by norm_num)
    linarith
  set z : ℝ := 87/100 + Real.log (11/10) / 4 - 5.8 with hz
  have hz1 : (-5:ℝ) < z := by
    rw [hz]
    norm_num
    linarith
  have hz2 : z ≤ -49/10 := by
    rw [hz]
    norm_num
    linarith
  have hy1 : (1:ℝ)/149 < Real.exp z := by
    have h1 : Real.exp (-5:ℝ) < Real.exp z := Real.exp_lt_exp.mpr hz1
    have h2 : (1:ℝ)/149 < (Real.exp 5)⁻¹ := by
      rw [one_div, show (149:ℝ)⁻¹ = ((149:ℝ))⁻¹ from rfl]
      exact inv_lt_inv_of_lt (Real.exp_pos 5) exp_five_lt_149
    rw [show (-5:ℝ) = -(5:ℝ) by norm_num, Real.exp_neg] at h1
    linarith
  have hy2 : Real.exp z < 1/103 := by
    have h1 : Real.exp z ≤ Real.exp (-49/10 : ℝ) := Real.exp_le_exp.mpr hz2
    have h2 : Real.exp (-49/10 : ℝ) < 1/103 := by
      rw [show (-49/10 : ℝ) = -(49/10) by norm_num, Real.exp_neg, one_div]
      exact inv_lt_inv_of_lt (by norm_num) exp_49_tenths_gt_103
    linarith
  have hM1 : (1:ℝ)/10 ≤ Real.log (10/9) := by
    have h9 : Real.log (9/10 : ℝ) = -Real.log (10/9) := by
      rw [show (9/10:ℝ) = (10/9)⁻¹ by norm_num, Real.log_inv]
    have := Real.log_le_sub_one_of_pos (show (0:ℝ) < 9/10 by norm_num)
    rw [h9] at this
    linarith
  have hM2 : Real.log (10/9 : ℝ) ≤ 1/9 := by
    have := Real.log_le_sub_one_of_pos (show (0:ℝ) < 10/9 by norm_num)
    linarith
  have hpow : (0.900:ℝ) ^ Real.exp z = Real.exp (-(Real.log (10/9) * Real.exp z)) := by
    rw [show (0.900:ℝ) = 9/10 by norm_num,
      Real.rpow_def_of_pos (show (0:ℝ) < 9/10 by norm_num)]
    congr 1
    rw [show (9/10:ℝ) = (10/9)⁻¹ by norm_num, Real.log_inv]
    ring
  set s : ℝ := Real.log (10/9) * Real.exp z with hs
  have hs1 : 1/1490 < s := by
    rw [hs]
    nlinarith [Real.exp_pos z]
  have hs2 : s < 1/927 := by
    rw [hs]
    nlinarith [Real.exp_pos z, hL0]
  rw [hpow]
  constructor
  · have h1 : (1491:ℝ)/1490 < Real.exp s := by
      have := Real.add_one_le_exp s
      linarith
    have h2 : Real.exp (-s) < 1490/1491 := by
      rw [Real.exp_neg]
      have h3 := inv_lt_inv_of_lt (show (0:ℝ) < 1491/1490 by norm_num) h1
      rw [show ((1491:ℝ)/1490)⁻¹ = 1490/1491 by norm_num] at h3
      exact h3
    linarith
  · have h1 : 1 - s ≤ Real.exp (-s) := by
      have := Real.add_one_le_exp (-s)
      linarith
    linarith

theorem estimate_smart_risk_min_profile :
    estimate_smart_risk 30 Sex.Female 80 2 3 false false 120 (1/10) 0 = 1/10 := by
  unfold estimate_smart_risk
  rw [smart_lp_min_profile]
  have hb := raw_risk_bounds
  unfold pyRound1
  rw [show roundHalfEven ((1 - (0.900:ℝ) ^
      Real.exp (87/100 + Real.log (11/10) / 4 - 5.8)) * 100 * 10) = 1 from
    roundHalfEven_eq_of 1 _ (by push_cast; nlinarith [hb.1]) (by push_cast; nlinarith [hb.2])]
  norm_num

theorem estimate_5yr_at_tenth : estimate_5yr_from_10yr (1/10) = 1/10 := by
  unfold estimate_5yr_from_10yr
  rw [show (1:ℝ) - (1/10)/100 = 999/1000 by norm_num]
  have hsq : (999/1000:ℝ) ^ ((0.5:ℝ)) = Real.sqrt (999/1000) := by
    rw [Real.sqrt_eq_rpow]
    norm_num
  rw [hsq]
  have hub : Real.sqrt ((999:ℝ)/1000) < 1999/2000 := by
    rw [Real.sqrt_lt' (by norm_num)]
    norm_num
  have hlb : ((9994:ℝ)/10000) ≤ Real.sqrt ((999:ℝ)/1000) := by
    rw [Real.le_sqrt (by norm_num) (by norm_num)]
    norm_num
  unfold pyRound1
  rw [show roundHalfEven ((1 - Real.sqrt ((999:ℝ)/1000)) * 100 * 10) = 1 from
    roundHalfEven_eq_of 1 _ (by push_cast; nlinarith) (by push_cast; nlinarith)]
  norm_num

/-- Claim C4, counterexample: at the valid profile (age 30, female, SBP 80,
total cholesterol 2.0, HDL 3.0, non-smoker, non-diabetic, eGFR 120,
hs-CRP 0.1, no vascular beds) the rounded 10-year risk is 0.1 % and the
derived rounded 5-year risk is also 0.1 %: `risk5 < risk10` fails after
rounding even though `risk10 > 0`. -/
theorem claim_C4_counterexample :
    estimate_smart_risk 30 Sex.Female 80 2 3 false false 120 (1/10) 0 = 1/10 ∧
    (0:ℝ) < estimate_smart_risk 30 Sex.Female 80 2 3 false false 120 (1/10) 0 ∧
    ¬ (estimate_5yr_from_10yr
        (estimate_smart_risk 30 Sex.Female 80 2 3 false false 120 (1/10) 0)
      < estimate_smart_risk 30 Sex.Female 80 2 3 false false 120 (1/10) 0) := by
  have h10 := estimate_smart_risk_min_profile
  refine ⟨h10, by rw [h10]; norm_num, ?_⟩
  rw [h10, estimate_5yr_at_tenth]
  exact lt_irrefl _

theorem estimate_5yr_le_tenths (m : ℤ) (h0 : 0 ≤ m) (h1 : m ≤ 1000) :
    estimate_5yr_from_10yr ((m:ℝ)/10) ≤ (m:ℝ)/10 := by
  have hm0 : (0:ℝ) ≤ (m:ℝ) := by exact_mod_cast h0
  have hm1 : (m:ℝ) ≤ 1000 := by exact_mod_cast h1
  unfold estimate_5yr_from_10yr
  rw [show (1:ℝ) - ((m:ℝ)/10)/100 = 1 - (m:ℝ)/1000 by ring]
  have hsq : ((1:ℝ) - (m:ℝ)/1000) ^ ((0.5:ℝ)) = Real.sqrt (1 - (m:ℝ)/1000) := by
    rw [Real.sqrt_eq_rpow]
    norm_num
  rw [hsq]
  have hle : (1:ℝ) - (m:ℝ)/1000 ≤ Real.sqrt (1 - (m:ℝ)/1000) := by
    rw [Real.le_sqrt (by linarith) (by linarith)]
    nlinarith
  calc pyRound1 (((1:ℝ) - Real.sqrt (1 - (m:ℝ)/1000)) * 100)
      ≤ pyRound1 ((m:ℝ)/10) := pyRound1_mono (by linarith)
    _ = (m:ℝ)/10 := pyRound1_tenth m

/-- Claim C4, amended: for every profile the derived rounded 5-year risk is
at most the rounded 10-year risk, `risk5 ≤ risk10`; the inequality is not
strict in general, since after the one-decimal rounding the two can coincide
(they do at `risk10 = 0.1`, see the counterexample). -/
theorem claim_C4_risk5_le_risk10 (age : ℝ) (sex : Sex) (sbp total_chol hdl : ℝ)
    (smoker diabetes : Bool) (egfr crp vasc_count : ℝ) :
    estimate_5yr_from_10yr
        (estimate_smart_risk age sex sbp total_chol hdl smoker diabetes egfr crp vasc_count)
      ≤ estimate_smart_risk age sex sbp total_chol hdl smoker diabetes egfr crp vasc_count := by
  unfold estimate_smart_risk
  set w : ℝ := (1 - (0.900:ℝ) ^
    Real.exp (smart_lp age sex sbp total_chol hdl smoker diabetes egfr crp vasc_count
      - 5.8)) * 100 with hw
  have hpow1 : (0.900:ℝ) ^
      Real.exp (smart_lp age sex sbp total_chol hdl smoker diabetes egfr crp vasc_count
        - 5.8) < 1 :=
    Real.rpow_lt_one (by norm_num) (by norm_num) (Real.exp_pos _)
  have hpow0 : 0 < (0.900:ℝ) ^
      Real.exp (smart_lp age sex sbp total_chol hdl smoker diabetes egfr crp vasc_count
        - 5.8) :=
    Real.rpow_pos_of_pos (by norm_num) _
  have hw0 : 0 < w := by
    rw [hw]
    nlinarith
  have hw1 : w < 100 := by
    rw [hw]
    nlinarith
  unfold pyRound1
  set m := roundHalfEven (w * 10) with hm
  have hfl0 : (0:ℤ) ≤ ⌊w * 10⌋ := Int.floor_nonneg.mpr (by linarith)
  have hflu : ⌊w * 10⌋ ≤ 999 := by
    have h1 : ((⌊w * 10⌋ : ℤ) : ℝ) ≤ w * 10 := Int.floor_le _
    have h2 : ((⌊w * 10⌋ : ℤ) : ℝ) < 1000 := by linarith
    have h3 : (⌊w * 10⌋ : ℤ) < 1000 := by exact_mod_cast h2
    omega
  have hm0 : 0 ≤ m := by
    have := floor_le_roundHalfEven (w * 10)
    omega
  have hm1 : m ≤ 1000 := by
    have := roundHalfEven_le_floor_add_one (w * 10)
    omega
  exact estimate_5yr_le_tenths m hm0 hm1
